import Mathlib

/-!
# Verification of `bvl::value_t` (badval.hpp)

Shallow embedding of the tagged-union value type of `src/include/badval.hpp`.

Modelling decisions (each mirrors the C++ source, not the prose spec):

* The C++ `double` payload is only ever stored and re-read verbatim (no
  arithmetic is performed on it anywhere in the library; the only literal used
  is `0.0`).  It is therefore modelled by an opaque scalar type `double := Int`
  with `0.0 ↦ 0`; store/load of a 64-bit value is bit-exact, so this is
  faithful for every operation the code performs.
* `std::string*` cells live in an explicit heap: a list of `(address, contents)`
  pairs plus a fresh-address counter.  `new`/`delete` of string cells and every
  invocation of a pointer releaser are recorded in event logs (`deletes`,
  `calls`) so that "released exactly once" is a statement about the log.
* `new (std::nothrow)` may fail; whether a given allocation succeeds is an
  explicit `allocOk : Bool` input of the operations that allocate.
* The enum `type_t` has an integral underlying type, so a corrupted object may
  carry a tag outside `{number = 0, string = 1, pointer = 2}`; the tag is
  modelled as a `Nat` and every `switch` keeps its `default:` branch.
* The anonymous union is modelled by `uvalue`, whose constructor records which
  member was written last.  Reading a member other than the last one written is
  undefined behaviour in C++ and never happens through the API; the model's
  union readers return a junk default in that case, and every theorem is stated
  for well-formed values where the case is unreachable.
* `assert(0)` (reached only on an impossible tag in `cleanup` and in the move
  operations) is modelled as the distinct terminal outcome `asserted`
  (debug-build semantics: the process aborts).  Thrown C++ exceptions are
  modelled by `Except`/an explicit exception value.
-/

namespace bvl

set_option autoImplicit false

/-- Model of the C++ `double` payload: stored and returned verbatim, never
computed with; `0.0` is modelled as `0`. -/
abbrev double := Int

/-- Exceptions the library can throw.  `std::runtime_error` carries its
message so that the type-mismatch errors and the unsupported pointer-copy
error stay distinguishable, exactly as they are to a C++ caller. -/
inductive cppExn where
  | runtimeError (msg : String)
  | badAlloc
  | logicError (msg : String)
  deriving DecidableEq, Repr

/-- Model of the anonymous union inside `value_t`: the constructor records the
member written last (`num`, `str`, or the `ptr`/`free` pair).  The string
member is a nullable `std::string*` (`none` = `nullptr`); the stored `void*`
is an abstract address (`0` = `nullptr`); the releaser function pointer is a
nullable abstract function identity. -/
inductive uvalue where
  | num (n : double)
  | str (p : Option Nat)
  | ptr (p : Nat) (free : Option Nat)
  deriving DecidableEq, Repr

/-- Read the `num` member of the union.  In C++ this is only defined when
`num` was the member last written; otherwise the model returns a junk `0`. -/
def uvalue.getNum : uvalue → double
  | .num n => n
  | _ => 0

/-- Read the `str` member of the union (junk `none` when not active). -/
def uvalue.getStr : uvalue → Option Nat
  | .str p => p
  | _ => none

/-- Read the `ptr` member of the union (junk `0` when not active). -/
def uvalue.getPtr : uvalue → Nat
  | .ptr p _ => p
  | _ => 0

/-- Read the `free` member of the union (junk `none` when not active). -/
def uvalue.getFree : uvalue → Option Nat
  | .ptr _ f => f
  | _ => none

/-- The value object: the `type` discriminant (underlying integer of the C++
enum `type_t`: `number = 0`, `string = 1`, `pointer = 2`) and the union. -/
structure value_t where
  type : Nat
  value : uvalue
  deriving DecidableEq, Repr

/-- The ambient state: live heap cells holding `std::string` objects, the next
fresh address, and event logs of every `delete` of a string cell and every
invocation of a releaser (releaser identity, pointer argument). -/
structure Heap where
  strs : List (Nat × String)
  next : Nat
  deletes : List Nat
  calls : List (Nat × Nat)
  deriving DecidableEq, Repr

/-- Find the contents of the string cell at address `a`. -/
def findStr : List (Nat × String) → Nat → Option String
  | [], _ => none
  | (b, s) :: t, a => if b = a then some s else findStr t a

/-- Remove the string cell at address `a` (the effect of `delete` on the set
of live cells). -/
def removeStr : List (Nat × String) → Nat → List (Nat × String)
  | [], _ => []
  | (b, s) :: t, a => if b = a then removeStr t a else (b, s) :: removeStr t a

/-- Contents of the live cell at `a`, if any. -/
def Heap.lookup (h : Heap) (a : Nat) : Option String :=
  findStr h.strs a

/-- `new (std::nothrow) std::string(s)` succeeding: a fresh cell. -/
def Heap.allocStr (h : Heap) (s : String) : Heap × Nat :=
  (⟨(h.next, s) :: h.strs, h.next + 1, h.deletes, h.calls⟩, h.next)

/-- `delete` of the cell at `a`: the cell dies and the deletion is logged. -/
def Heap.deleteStr (h : Heap) (a : Nat) : Heap :=
  ⟨removeStr h.strs a, h.next, a :: h.deletes, h.calls⟩

/-- Invocation of releaser `f` on pointer `p`, recorded in the call log. -/
def Heap.invoke (h : Heap) (f p : Nat) : Heap :=
  ⟨h.strs, h.next, h.deletes, (f, p) :: h.calls⟩

/-- Dereference a `std::string*` (junk `""` for `nullptr`/dangling, which is
undefined behaviour in C++ and unreachable in the theorems below). -/
def Heap.strAt (h : Heap) (p : Option Nat) : String :=
  match p with
  | some a => (h.lookup a).getD ""
  | none => ""

/-- Heap sanity: every live address is below the fresh-address counter. -/
def Heap.wfb (h : Heap) : Bool :=
  h.strs.all fun pr => pr.1 < h.next

/-- Well-formed value: the tag is one of the three enum values and the union
member last written is the one belonging to the tag.  Every value reachable
through the library's API satisfies this. -/
def value_t.wf (v : value_t) : Bool :=
  match v.type, v.value with
  | 0, .num _ => true
  | 1, .str _ => true
  | 2, .ptr _ _ => true
  | _, _ => false

/-- A value whose owned string cell (if any) was allocated by this heap's
allocator, i.e. its address is below the fresh counter. -/
def value_t.okIn (v : value_t) (h : Heap) : Bool :=
  match v.type, v.value with
  | 1, .str (some a) => a < h.next
  | _, _ => true

/-- Outcome of a `noexcept` operation: it either completes or hits
`assert(0)` on an impossible tag. -/
inductive noexceptResult (α : Type) where
  | ok (a : α)
  | asserted
  deriving DecidableEq, Repr

/-- Outcome of an assignment operator: the new state of the left-hand object,
or a propagated exception (the left-hand object is still alive, in the state
carried by `thrown`), or an assertion failure. -/
inductive assignResult where
  | ok (lhs : value_t)
  | thrown (e : cppExn) (lhs : value_t)
  | asserted
  deriving DecidableEq, Repr

/-! ## The operations of `value_t`, translated switch by switch -/

/-- `value_t::Type() const noexcept` — returns the discriminant.
(Named `Tag` here because `Type` is reserved in Lean.) -/
def value_t.Tag (v : value_t) : Nat :=
  v.type

/-- `value_t::AsNumber() const`. -/
def value_t.AsNumber (v : value_t) : Except cppExn double :=
  if v.type = 0 then .ok v.value.getNum
  else .error (.runtimeError "Value is not a number")

/-- `value_t::AsString() const` — returns `*this->value.str`, i.e. a reference
to the heap cell; the model returns the cell's address (the reference's
identity).  Contents are read off a heap with `Heap.strAt`. -/
def value_t.AsString (v : value_t) : Except cppExn (Option Nat) :=
  if v.type = 1 then .ok v.value.getStr
  else .error (.runtimeError "Value is not a string")

/-- `value_t::AsPointer() const`. -/
def value_t.AsPointer (v : value_t) : Except cppExn Nat :=
  if v.type = 2 then .ok v.value.getPtr
  else .error (.runtimeError "Value is not a pointer")

/-- Default constructor `value_t()` — number `0.0`. -/
def value_default : value_t :=
  ⟨0, .num 0⟩

/-- Number constructor `value_t(double num)`. -/
def fromNumber (n : double) : value_t :=
  ⟨0, .num n⟩

/-- String constructor `value_t(str_t&&... arg)`: allocates a fresh
`std::string` cell constructed from the arguments (modelled by the resulting
`String` `s`); throws `std::bad_alloc` when the `nothrow` allocation fails. -/
def fromString (h : Heap) (s : String) (allocOk : Bool) :
    Heap × Except cppExn value_t :=
  if allocOk then
    let r := h.allocStr s
    (r.1, .ok ⟨1, .str (some r.2)⟩)
  else
    (h, .error .badAlloc)

/-- Pointer constructor `value_t(void* ptr, freeFuncPtr_t free)`. -/
def fromPointer (p : Nat) (free : Option Nat) : value_t :=
  ⟨2, .ptr p free⟩

/-- `value_t::cleanup() noexcept`: releases the owned resource per tag
(`delete` of the string cell — a no-op on `nullptr`; invocation of the
releaser when non-null) and resets the object to number `0.0`.  The
`default:` branch is `assert(0)`. -/
def cleanupOp (h : Heap) (v : value_t) : Heap × noexceptResult value_t :=
  match v.type with
  | 0 => (h, .ok ⟨0, .num 0⟩)
  | 1 =>
    (match v.value.getStr with
     | some a => h.deleteStr a
     | none => h,
     .ok ⟨0, .num 0⟩)
  | 2 =>
    (match v.value.getFree with
     | some f => h.invoke f v.value.getPtr
     | none => h,
     .ok ⟨0, .num 0⟩)
  | _ => (h, .asserted)

/-- Copy constructor `value_t(const value_t& src)`: numbers are copied
trivially, strings are deep-copied into a fresh cell (throwing
`std::bad_alloc` on allocation failure), copying a pointer throws
`std::runtime_error`, and an impossible tag throws `std::logic_error`.
`src` is taken by const reference and never modified. -/
def copyCtor (h : Heap) (src : value_t) (allocOk : Bool) :
    Heap × Except cppExn value_t :=
  match src.type with
  | 0 => (h, .ok ⟨src.type, .num src.value.getNum⟩)
  | 1 =>
    if allocOk then
      let r := h.allocStr (h.strAt src.value.getStr)
      (r.1, .ok ⟨src.type, .str (some r.2)⟩)
    else
      (h, .error .badAlloc)
  | 2 => (h, .error (.runtimeError "Do not know how to copy pointer"))
  | _ => (h, .error (.logicError "Impossible type"))

/-- Move constructor `value_t(value_t&& src) noexcept`: returns the new
object and the post-move state of `src` (string pointer nulled, pointer and
releaser nulled; a moved-from number is left as is). -/
def moveCtor (src : value_t) : noexceptResult (value_t × value_t) :=
  match src.type with
  | 0 => .ok (⟨src.type, .num src.value.getNum⟩, src)
  | 1 => .ok (⟨src.type, .str src.value.getStr⟩, ⟨src.type, .str none⟩)
  | 2 => .ok (⟨src.type, .ptr src.value.getPtr src.value.getFree⟩,
              ⟨src.type, .ptr 0 none⟩)
  | _ => .asserted

/-- Move assignment `operator=(value_t&& rhs) noexcept`.  `same` models the
pointer identity test `this == &rhs` (when it is `true` the two value
arguments are the same object).  Otherwise: `cleanup()` of the left-hand
object, then the per-tag transfer that nulls out `rhs`'s owning members.
Returns the new states of `*this` and of `rhs`. -/
def moveAssign (h : Heap) (lhs rhs : value_t) (same : Bool) :
    Heap × noexceptResult (value_t × value_t) :=
  if same then
    (h, .ok (lhs, rhs))
  else
    match cleanupOp h lhs with
    | (h1, .asserted) => (h1, .asserted)
    | (h1, .ok _) =>
      match rhs.type with
      | 0 => (h1, .ok (⟨rhs.type, .num rhs.value.getNum⟩, rhs))
      | 1 => (h1, .ok (⟨rhs.type, .str rhs.value.getStr⟩,
                       ⟨rhs.type, .str none⟩))
      | 2 => (h1, .ok (⟨rhs.type, .ptr rhs.value.getPtr rhs.value.getFree⟩,
                       ⟨rhs.type, .ptr 0 none⟩))
      | _ => (h1, .asserted)

/-- Copy assignment `operator=(const value_t& rhs)`: after the `this != &rhs`
guard (`same`), it runs `*this = value_t(rhs);` — copy-construct a temporary
(which may throw, leaving `*this` untouched), move-assign it into `*this`,
then destroy the moved-from temporary. -/
def copyAssign (h : Heap) (lhs rhs : value_t) (same : Bool) (allocOk : Bool) :
    Heap × assignResult :=
  if same then
    (h, .ok lhs)
  else
    match copyCtor h rhs allocOk with
    | (h1, .error e) => (h1, .thrown e lhs)
    | (h1, .ok tmp) =>
      match moveAssign h1 lhs tmp false with
      | (h2, .ok (lhs2, tmp2)) =>
        ((cleanupOp h2 tmp2).1, .ok lhs2)
      | (h2, .asserted) => (h2, .asserted)

/-- The destructor `~value_t()` just runs `cleanup()`. -/
def destroy (h : Heap) (v : value_t) : Heap × noexceptResult value_t :=
  cleanupOp h v

/-! ## The compile-time-dispatched accessor `As<type>` -/

/-- The compile-time tag parameter of the template `As<value_t::type_t>`:
only the three specializations exist. -/
inductive ctag where
  | number
  | string
  | pointer
  deriving DecidableEq, Repr

/-- Common codomain for the three specializations of `As` (they return
`double`, `const std::string&` and `const void*` respectively). -/
inductive asResult where
  | num (n : double)
  | str (p : Option Nat)
  | ptr (p : Nat)
  deriving DecidableEq, Repr

/-- `value_t::As<type>() const`: each specialization delegates to the
corresponding named accessor, exactly as in the source. -/
def value_t.As (t : ctag) (v : value_t) : Except cppExn asResult :=
  match t with
  | .number => (v.AsNumber).map asResult.num
  | .string => (v.AsString).map asResult.str
  | .pointer => (v.AsPointer).map asResult.ptr

/-- Post-move state of a source value, per tag (what the move operations
leave behind for a well-formed source). -/
def disengage (v : value_t) : value_t :=
  match v.type with
  | 0 => v
  | 1 => ⟨v.type, .str none⟩
  | 2 => ⟨v.type, .ptr 0 none⟩
  | _ => v

/-- The empty ambient state. -/
def h0 : Heap :=
  ⟨[], 0, [], []⟩

/-- A one-cell state: address 0 holds `"hello"` (the state produced by
`fromString h0 "hello" true`). -/
def hHello : Heap :=
  ⟨[(0, "hello")], 1, [], []⟩

/-! ## Helper lemmas -/

theorem findStr_removeStr (l : List (Nat × String)) (a b : Nat) (hab : a ≠ b) :
    findStr (removeStr l a) b = findStr l b := by
  induction l with
  | nil => rfl
  | cons pr t ih =>
    rcases pr with ⟨c, s⟩
    simp only [removeStr]
    by_cases hc : c = a
    · subst hc
      rw [if_pos rfl, ih]
      simp [findStr, hab]
    · rw [if_neg hc]
      simp only [findStr]
      by_cases hcb : c = b
      · simp [hcb]
      · simp [hcb, ih]

theorem lt_of_findStr (l : List (Nat × String)) (nx a : Nat) (s : String)
    (hw : ∀ pr ∈ l, pr.1 < nx) (hl : findStr l a = some s) : a < nx := by
  induction l with
  | nil => simp [findStr] at hl
  | cons pr t ih =>
    rcases pr with ⟨b, sb⟩
    simp only [findStr] at hl
    by_cases hb : b = a
    · subst hb
      exact hw (b, sb) (by simp)
    · rw [if_neg hb] at hl
      exact ih (fun x hx => hw x (List.mem_cons_of_mem _ hx)) hl

theorem lt_next_of_lookup (h : Heap) (a : Nat) (s : String)
    (hw : h.wfb = true) (hl : h.lookup a = some s) : a < h.next := by
  have hw2 : ∀ pr ∈ h.strs, pr.1 < h.next := by
    simpa [Heap.wfb, List.all_eq_true, decide_eq_true_eq] using hw
  exact lt_of_findStr h.strs h.next a s hw2 hl

theorem findStr_eq_none_of_ge (l : List (Nat × String)) (nx a : Nat)
    (hw : ∀ pr ∈ l, pr.1 < nx) (ha : nx ≤ a) : findStr l a = none := by
  induction l with
  | nil => rfl
  | cons pr t ih =>
    rcases pr with ⟨b, sb⟩
    have hb : b < nx := hw (b, sb) (by simp)
    simp only [findStr]
    rw [if_neg (by omega)]
    exact ih fun x hx => hw x (List.mem_cons_of_mem _ hx)

theorem value_t.wf_cases (v : value_t) (hv : v.wf = true) :
    (∃ n, v = ⟨0, .num n⟩) ∨ (∃ p, v = ⟨1, .str p⟩) ∨
      (∃ p f, v = ⟨2, .ptr p f⟩) := by
  rcases v with ⟨t, u⟩
  rcases t with _ | _ | _ | t <;> rcases u with n | p | ⟨p, f⟩ <;>
    first
      | exact Or.inl ⟨n, rfl⟩
      | exact Or.inr (Or.inl ⟨p, rfl⟩)
      | exact Or.inr (Or.inr ⟨p, f, rfl⟩)
      | simp [value_t.wf] at hv

theorem allocStr_addr (h : Heap) (s : String) : (h.allocStr s).2 = h.next :=
  rfl

/-- Cleaning up a well-formed value whose owned cell (if any) predates this
heap's fresh counter never kills a freshly allocated cell. -/
theorem cleanup_preserves_fresh (h : Heap) (lhs : value_t) (c : String)
    (hl : lhs.wf = true) (hok : lhs.okIn h = true) :
    ∃ hB, cleanupOp (h.allocStr c).1 lhs = (hB, .ok ⟨0, .num 0⟩) ∧
      hB.lookup h.next = some c := by
  rcases value_t.wf_cases lhs hl with ⟨n, rfl⟩ | ⟨q, rfl⟩ | ⟨p, f, rfl⟩
  · exact ⟨_, rfl, by simp [Heap.allocStr, Heap.lookup, findStr]⟩
  · rcases q with _ | a
    · exact ⟨_, rfl, by
        simp [cleanupOp, uvalue.getStr, Heap.allocStr, Heap.lookup, findStr]⟩
    · have ha : a < h.next := by simpa [value_t.okIn] using hok
      refine ⟨_, rfl, ?_⟩
      simp only [cleanupOp, uvalue.getStr, Heap.deleteStr, Heap.allocStr,
        Heap.lookup]
      rw [findStr_removeStr _ a h.next (by omega)]
      simp [findStr]
  · rcases f with _ | g
    · exact ⟨_, rfl, by
        simp [cleanupOp, uvalue.getFree, Heap.allocStr, Heap.lookup, findStr]⟩
    · exact ⟨_, rfl, by
        simp [cleanupOp, uvalue.getFree, uvalue.getPtr, Heap.invoke,
          Heap.allocStr, Heap.lookup, findStr]⟩

/-- Copy-assigning a number into any well-formed destination: the prior
content is cleaned up and the number committed. -/
theorem copyAssign_num (h : Heap) (lhs : value_t) (n : double)
    (allocOk : Bool) (hl : lhs.wf = true) :
    copyAssign h lhs ⟨0, .num n⟩ false allocOk =
      ((cleanupOp h lhs).1, .ok ⟨0, .num n⟩) := by
  rcases value_t.wf_cases lhs hl with ⟨m, rfl⟩ | ⟨q, rfl⟩ | ⟨p, f, rfl⟩ <;>
    simp [copyAssign, copyCtor, moveAssign, cleanupOp,
      uvalue.getNum, uvalue.getStr, uvalue.getPtr, uvalue.getFree]

/-- Copy-assigning a text value with a succeeding allocation: the deep copy
lands in the fresh cell `h.next` and survives the cleanup of the prior
content of the destination. -/
theorem copyAssign_string_ok (h : Heap) (lhs : value_t) (q : Option Nat)
    (hl : lhs.wf = true) (hok : lhs.okIn h = true) :
    ∃ hB, copyAssign h lhs ⟨1, .str q⟩ false true =
        (hB, .ok ⟨1, .str (some h.next)⟩) ∧
      hB.lookup h.next = some (h.strAt q) := by
  obtain ⟨hB, hclean, hlook⟩ :=
    cleanup_preserves_fresh h lhs (h.strAt q) hl hok
  refine ⟨hB, ?_, hlook⟩
  have hcc : copyCtor h ⟨1, .str q⟩ true =
      ((h.allocStr (h.strAt q)).1, .ok ⟨1, .str (some h.next)⟩) := by
    simp [copyCtor, uvalue.getStr, allocStr_addr]
  have hma : moveAssign (h.allocStr (h.strAt q)).1 lhs
        ⟨1, .str (some h.next)⟩ false =
      (hB, .ok (⟨1, .str (some h.next)⟩, ⟨1, .str none⟩)) := by
    simp only [moveAssign, Bool.false_eq_true, if_false, hclean]
    simp [uvalue.getStr]
  have hcl2 : cleanupOp hB ⟨1, .str none⟩ = (hB, .ok ⟨0, .num 0⟩) := by
    simp [cleanupOp, uvalue.getStr]
  simp [copyAssign, hcc, hma, hcl2]

/-! ## The claims -/

/-- C1: for every well-formed value the tag is exactly one of
{number, string, pointer}; the accessor matching the tag succeeds and
returns the stored payload, while the other two accessors fail with the
respective type-mismatch `runtime_error`; in particular
`fromNumber n |>.AsNumber = ok n`. -/
theorem C1_tag_accessor_roundtrip (v : value_t) (n : double)
    (hv : v.wf = true) :
    (v.Tag = 0 ∨ v.Tag = 1 ∨ v.Tag = 2) ∧
    (v.Tag = 0 →
      (∃ m, v.value = .num m ∧ v.AsNumber = .ok m) ∧
      v.AsString = .error (.runtimeError "Value is not a string") ∧
      v.AsPointer = .error (.runtimeError "Value is not a pointer")) ∧
    (v.Tag = 1 →
      (∃ p, v.value = .str p ∧ v.AsString = .ok p) ∧
      v.AsNumber = .error (.runtimeError "Value is not a number") ∧
      v.AsPointer = .error (.runtimeError "Value is not a pointer")) ∧
    (v.Tag = 2 →
      (∃ p f, v.value = .ptr p f ∧ v.AsPointer = .ok p) ∧
      v.AsNumber = .error (.runtimeError "Value is not a number") ∧
      v.AsString = .error (.runtimeError "Value is not a string")) ∧
    (fromNumber n).AsNumber = .ok n ∧
    (fromNumber n).AsString = .error (.runtimeError "Value is not a string") ∧
    (fromNumber n).AsPointer = .error (.runtimeError "Value is not a pointer") := by
  rcases value_t.wf_cases v hv with ⟨m, rfl⟩ | ⟨p, rfl⟩ | ⟨p, f, rfl⟩ <;>
    simp [value_t.Tag, value_t.AsNumber, value_t.AsString, value_t.AsPointer,
      fromNumber, uvalue.getNum, uvalue.getStr, uvalue.getPtr]

/-- Witness for C1 at the pointer-tagged value `fromPointer 7 (some 3)`
and the number `5`. -/
theorem C1_tag_accessor_roundtrip_witness :
    (fromPointer 7 (some 3)).wf = true ∧
    (((fromPointer 7 (some 3)).Tag = 0 ∨ (fromPointer 7 (some 3)).Tag = 1 ∨
        (fromPointer 7 (some 3)).Tag = 2) ∧
     ((fromPointer 7 (some 3)).Tag = 0 →
       (∃ m, (fromPointer 7 (some 3)).value = .num m ∧
          (fromPointer 7 (some 3)).AsNumber = .ok m) ∧
       (fromPointer 7 (some 3)).AsString =
         .error (.runtimeError "Value is not a string") ∧
       (fromPointer 7 (some 3)).AsPointer =
         .error (.runtimeError "Value is not a pointer")) ∧
     ((fromPointer 7 (some 3)).Tag = 1 →
       (∃ p, (fromPointer 7 (some 3)).value = .str p ∧
          (fromPointer 7 (some 3)).AsString = .ok p) ∧
       (fromPointer 7 (some 3)).AsNumber =
         .error (.runtimeError "Value is not a number") ∧
       (fromPointer 7 (some 3)).AsPointer =
         .error (.runtimeError "Value is not a pointer")) ∧
     ((fromPointer 7 (some 3)).Tag = 2 →
       (∃ p f, (fromPointer 7 (some 3)).value = .ptr p f ∧
          (fromPointer 7 (some 3)).AsPointer = .ok p) ∧
       (fromPointer 7 (some 3)).AsNumber =
         .error (.runtimeError "Value is not a number") ∧
       (fromPointer 7 (some 3)).AsString =
         .error (.runtimeError "Value is not a string")) ∧
     (fromNumber 5).AsNumber = .ok 5 ∧
     (fromNumber 5).AsString = .error (.runtimeError "Value is not a string") ∧
     (fromNumber 5).AsPointer = .error (.runtimeError "Value is not a pointer")) :=
  ⟨rfl, C1_tag_accessor_roundtrip (fromPointer 7 (some 3)) 5 rfl⟩

/-- C2: copying an OpaquePointer-tagged value — by copy construction, or by
copy assignment from it into a distinct object — fails with the
unsupported-operation error; the ambient state is untouched (so the source,
never written to, stays unchanged and usable) and no copy is produced (the
left-hand object of the failed assignment keeps its prior state).  The
aliasing case `this == &rhs` of copy assignment is the self-assignment
no-op settled separately. -/
theorem C2_pointer_copy_fails (h : Heap) (src lhs : value_t)
    (allocOk : Bool) (hs : src.Tag = 2) :
    copyCtor h src allocOk =
      (h, .error (.runtimeError "Do not know how to copy pointer")) ∧
    copyAssign h lhs src false allocOk =
      (h, .thrown (.runtimeError "Do not know how to copy pointer") lhs) := by
  rcases src with ⟨t, u⟩
  simp only [value_t.Tag] at hs
  subst hs
  simp [copyCtor, copyAssign]

/-- Witness for C2: copying `fromPointer 7 (some 3)` over `value_default`
in the empty state. -/
theorem C2_pointer_copy_fails_witness :
    (fromPointer 7 (some 3)).Tag = 2 ∧
    (copyCtor h0 (fromPointer 7 (some 3)) true =
        (h0, .error (.runtimeError "Do not know how to copy pointer")) ∧
     copyAssign h0 value_default (fromPointer 7 (some 3)) false true =
        (h0, .thrown (.runtimeError "Do not know how to copy pointer")
          value_default)) :=
  ⟨rfl, C2_pointer_copy_fails h0 (fromPointer 7 (some 3)) value_default true rfl⟩

/-- C6: `fromPointer p r` is a total function (it never fails) whose
`AsPointer` returns `p`; discarding its content — destruction or the shared
pre-assignment `cleanup` — invokes a non-null releaser exactly once, with
exactly `p` (one new entry in the call log), and invokes nothing when the
releaser is null. -/
theorem C6_pointer_lifecycle (h : Heap) (p f : Nat) :
    (fromPointer p (some f)).AsPointer = .ok p ∧
    (fromPointer p none).AsPointer = .ok p ∧
    destroy h (fromPointer p (some f)) = (h.invoke f p, .ok value_default) ∧
    (h.invoke f p).calls = (f, p) :: h.calls ∧
    (h.invoke f p).strs = h.strs ∧
    (h.invoke f p).deletes = h.deletes ∧
    destroy h (fromPointer p none) = (h, .ok value_default) ∧
    cleanupOp h (fromPointer p (some f)) = (h.invoke f p, .ok value_default) ∧
    cleanupOp h (fromPointer p none) = (h, .ok value_default) := by
  refine ⟨rfl, rfl, rfl, rfl, rfl, rfl, rfl, rfl, rfl⟩

/-- C8: the compile-time-dispatched accessor `As<tag>` behaves exactly like
the dedicated accessor for that tag: it succeeds with the same payload when
the tag matches and fails with the same error value when it does not. -/
theorem C8_generic_accessor_equiv (v : value_t) :
    (∀ n, v.As .number = .ok (.num n) ↔ v.AsNumber = .ok n) ∧
    (∀ e, v.As .number = .error e ↔ v.AsNumber = .error e) ∧
    (∀ p, v.As .string = .ok (.str p) ↔ v.AsString = .ok p) ∧
    (∀ e, v.As .string = .error e ↔ v.AsString = .error e) ∧
    (∀ p, v.As .pointer = .ok (.ptr p) ↔ v.AsPointer = .ok p) ∧
    (∀ e, v.As .pointer = .error e ↔ v.AsPointer = .error e) := by
  rcases v with ⟨t, u⟩
  rcases t with _ | _ | _ | t <;>
    simp [value_t.As, value_t.AsNumber, value_t.AsString, value_t.AsPointer,
      Except.map]

/-- C3: copy assignment (between distinct objects) is all-or-nothing: when
it fails — `bad_alloc` on a text source when the allocation fails, the
unsupported-operation error on a pointer source — the ambient state and the
left-hand value are exactly what they were before; when it succeeds, the
left-hand value carries the right-hand value's tag and a complete copy of
its payload (the number itself, or a fresh cell holding equal text). -/
theorem C3_copy_assign_all_or_nothing (h : Heap) (lhs rhs : value_t)
    (allocOk : Bool) (hl : lhs.wf = true) (hok : lhs.okIn h = true)
    (hr : rhs.wf = true) :
    (∀ h2 e lhs2, copyAssign h lhs rhs false allocOk = (h2, .thrown e lhs2) →
      h2 = h ∧ lhs2 = lhs) ∧
    (rhs.Tag = 2 → copyAssign h lhs rhs false allocOk =
      (h, .thrown (.runtimeError "Do not know how to copy pointer") lhs)) ∧
    (rhs.Tag = 1 → allocOk = false → copyAssign h lhs rhs false allocOk =
      (h, .thrown .badAlloc lhs)) ∧
    (∀ h2 lhs2, copyAssign h lhs rhs false allocOk = (h2, .ok lhs2) →
      lhs2.Tag = rhs.Tag ∧
      (rhs.Tag = 0 → lhs2 = rhs) ∧
      (rhs.Tag = 1 → ∃ b, lhs2.value = .str (some b) ∧
        h2.lookup b = some (h.strAt rhs.value.getStr))) := by
  rcases value_t.wf_cases rhs hr with ⟨n, rfl⟩ | ⟨q, rfl⟩ | ⟨p, f, rfl⟩
  · have hres := copyAssign_num h lhs n allocOk hl
    refine ⟨?_, ?_, ?_, ?_⟩
    · intro h2 e lhs2 heq
      rw [hres] at heq
      simp at heq
    · intro htag
      simp [value_t.Tag] at htag
    · intro htag
      simp [value_t.Tag] at htag
    · intro h2 lhs2 heq
      rw [hres] at heq
      simp only [Prod.mk.injEq, assignResult.ok.injEq] at heq
      obtain ⟨rfl, rfl⟩ := heq
      simp [value_t.Tag]
  · cases allocOk with
    | false =>
      have hres : copyAssign h lhs ⟨1, .str q⟩ false false =
          (h, .thrown .badAlloc lhs) := by
        simp [copyAssign, copyCtor]
      refine ⟨?_, ?_, ?_, ?_⟩
      · intro h2 e lhs2 heq
        rw [hres] at heq
        simp only [Prod.mk.injEq, assignResult.thrown.injEq] at heq
        exact ⟨heq.1.symm, heq.2.2.symm⟩
      · intro htag
        simp [value_t.Tag] at htag
      · intro _ _
        exact hres
      · intro h2 lhs2 heq
        rw [hres] at heq
        simp at heq
    | true =>
      obtain ⟨hB, hres, hlook⟩ := copyAssign_string_ok h lhs q hl hok
      refine ⟨?_, ?_, ?_, ?_⟩
      · intro h2 e lhs2 heq
        rw [hres] at heq
        simp at heq
      · intro htag
        simp [value_t.Tag] at htag
      · intro _ hfalse
        simp at hfalse
      · intro h2 lhs2 heq
        rw [hres] at heq
        simp only [Prod.mk.injEq, assignResult.ok.injEq] at heq
        obtain ⟨rfl, rfl⟩ := heq
        exact ⟨rfl, by simp [value_t.Tag],
          fun _ => ⟨h.next, rfl, by simpa [uvalue.getStr] using hlook⟩⟩
  · have hres : copyAssign h lhs ⟨2, .ptr p f⟩ false allocOk =
        (h, .thrown (.runtimeError "Do not know how to copy pointer") lhs) := by
      simp [copyAssign, copyCtor]
    refine ⟨?_, ?_, ?_, ?_⟩
    · intro h2 e lhs2 heq
      rw [hres] at heq
      simp only [Prod.mk.injEq, assignResult.thrown.injEq] at heq
      exact ⟨heq.1.symm, heq.2.2.symm⟩
    · intro _
      exact hres
    · intro htag
      simp [value_t.Tag] at htag
    · intro h2 lhs2 heq
      rw [hres] at heq
      simp at heq

/-- Witness for C3: copy-assigning the text value at address 0 of `hHello`
onto itself-shaped distinct destination with a succeeding allocation. -/
theorem C3_copy_assign_all_or_nothing_witness :
    (⟨1, .str (some 0)⟩ : value_t).wf = true ∧
    (⟨1, .str (some 0)⟩ : value_t).okIn hHello = true ∧
    ((∀ h2 e lhs2,
        copyAssign hHello ⟨1, .str (some 0)⟩ ⟨1, .str (some 0)⟩ false true =
          (h2, .thrown e lhs2) →
        h2 = hHello ∧ lhs2 = ⟨1, .str (some 0)⟩) ∧
     ((⟨1, .str (some 0)⟩ : value_t).Tag = 2 →
        copyAssign hHello ⟨1, .str (some 0)⟩ ⟨1, .str (some 0)⟩ false true =
          (hHello, .thrown (.runtimeError "Do not know how to copy pointer")
            ⟨1, .str (some 0)⟩)) ∧
     ((⟨1, .str (some 0)⟩ : value_t).Tag = 1 → true = false →
        copyAssign hHello ⟨1, .str (some 0)⟩ ⟨1, .str (some 0)⟩ false true =
          (hHello, .thrown .badAlloc ⟨1, .str (some 0)⟩)) ∧
     (∀ h2 lhs2,
        copyAssign hHello ⟨1, .str (some 0)⟩ ⟨1, .str (some 0)⟩ false true =
          (h2, .ok lhs2) →
        lhs2.Tag = (⟨1, .str (some 0)⟩ : value_t).Tag ∧
        ((⟨1, .str (some 0)⟩ : value_t).Tag = 0 →
          lhs2 = ⟨1, .str (some 0)⟩) ∧
        ((⟨1, .str (some 0)⟩ : value_t).Tag = 1 →
          ∃ b, lhs2.value = .str (some b) ∧
            h2.lookup b =
              some (hHello.strAt
                (⟨1, .str (some 0)⟩ : value_t).value.getStr)))) :=
  ⟨rfl, rfl,
    C3_copy_assign_all_or_nothing hHello ⟨1, .str (some 0)⟩
      ⟨1, .str (some 0)⟩ true rfl rfl rfl⟩

/-- C4: moving a well-formed value — by move construction, or by move
assignment into a well-formed destination — never fails: the destination
receives exactly the source's tag and payload (so its matching accessor
returns the original content, by C1), the source is left disengaged, and
destroying the disengaged source performs no release action at all (the
ambient state is returned untouched: no string cell dies, no releaser
runs). -/
theorem C4_move_transfers_and_disengages (h h1 : Heap) (src lhs : value_t)
    (hs : src.wf = true) (hl : lhs.wf = true) :
    moveCtor src = .ok (src, disengage src) ∧
    destroy h (disengage src) = (h, .ok value_default) ∧
    moveAssign h1 lhs src false =
      ((cleanupOp h1 lhs).1, .ok (src, disengage src)) := by
  rcases value_t.wf_cases src hs with ⟨n, rfl⟩ | ⟨p, rfl⟩ | ⟨p, f, rfl⟩ <;>
    rcases value_t.wf_cases lhs hl with ⟨n2, rfl⟩ | ⟨p2, rfl⟩ | ⟨p2, f2, rfl⟩ <;>
    simp [moveCtor, disengage, cleanupOp, moveAssign, destroy, value_default,
      uvalue.getNum, uvalue.getStr, uvalue.getPtr, uvalue.getFree]

/-- Witness for C4: moving the string value at address 0 into a
pointer-tagged destination. -/
theorem C4_move_transfers_and_disengages_witness :
    (⟨1, .str (some 0)⟩ : value_t).wf = true ∧
    (fromPointer 1 (some 2)).wf = true ∧
    (moveCtor ⟨1, .str (some 0)⟩ =
        .ok (⟨1, .str (some 0)⟩, disengage ⟨1, .str (some 0)⟩) ∧
     destroy h0 (disengage ⟨1, .str (some 0)⟩) = (h0, .ok value_default) ∧
     moveAssign h0 (fromPointer 1 (some 2)) ⟨1, .str (some 0)⟩ false =
        ((cleanupOp h0 (fromPointer 1 (some 2))).1,
         .ok (⟨1, .str (some 0)⟩, disengage ⟨1, .str (some 0)⟩))) :=
  ⟨rfl, rfl,
    C4_move_transfers_and_disengages h0 h0 ⟨1, .str (some 0)⟩
      (fromPointer 1 (some 2)) rfl rfl⟩

/-- C5: move-assigning a well-formed value into a destination that owns a
resource releases that resource exactly once before the destination takes
the source's payload: a text destination's cell is deleted (one new entry
in the delete log, the call log untouched); a pointer destination with a
non-null releaser has the releaser invoked once with its pointer (one new
entry in the call log, the string heap and delete log untouched). -/
theorem C5_move_assign_releases_prior (h : Heap) (rhs : value_t)
    (a p f : Nat) (hr : rhs.wf = true) :
    moveAssign h ⟨1, .str (some a)⟩ rhs false =
      (h.deleteStr a, .ok (rhs, disengage rhs)) ∧
    (h.deleteStr a).deletes = a :: h.deletes ∧
    (h.deleteStr a).calls = h.calls ∧
    moveAssign h ⟨2, .ptr p (some f)⟩ rhs false =
      (h.invoke f p, .ok (rhs, disengage rhs)) ∧
    (h.invoke f p).calls = (f, p) :: h.calls ∧
    (h.invoke f p).deletes = h.deletes ∧
    (h.invoke f p).strs = h.strs := by
  rcases value_t.wf_cases rhs hr with ⟨n, rfl⟩ | ⟨q, rfl⟩ | ⟨q, g, rfl⟩ <;>
    simp [moveAssign, cleanupOp, disengage, Heap.deleteStr, Heap.invoke,
      uvalue.getNum, uvalue.getStr, uvalue.getPtr, uvalue.getFree]

/-- Witness for C5: move-assigning the number 9 into a text destination and
into an owning pointer destination. -/
theorem C5_move_assign_releases_prior_witness :
    (fromNumber 9).wf = true ∧
    (moveAssign h0 ⟨1, .str (some 4)⟩ (fromNumber 9) false =
        (h0.deleteStr 4, .ok (fromNumber 9, disengage (fromNumber 9))) ∧
     (h0.deleteStr 4).deletes = 4 :: h0.deletes ∧
     (h0.deleteStr 4).calls = h0.calls ∧
     moveAssign h0 ⟨2, .ptr 6 (some 2)⟩ (fromNumber 9) false =
        (h0.invoke 2 6, .ok (fromNumber 9, disengage (fromNumber 9))) ∧
     (h0.invoke 2 6).calls = (2, 6) :: h0.calls ∧
     (h0.invoke 2 6).deletes = h0.deletes ∧
     (h0.invoke 2 6).strs = h0.strs) :=
  ⟨rfl, C5_move_assign_releases_prior h0 (fromNumber 9) 4 6 2 rfl⟩

/-- C7: a successful copy of a text value is independent of the original:
the copy lives in the freshly allocated cell `h.next` — an address distinct
from the original's and not live before the copy — holding equal content;
overwriting the copy by assigning the number 5 into it, or destroying it,
leaves the original cell's content unchanged, and the overwritten copy
reads back as the number 5. -/
theorem C7_text_copy_independent (h : Heap) (a : Nat) (s : String)
    (hw : h.wfb = true) (hl : h.lookup a = some s) :
    ∃ hc, copyCtor h ⟨1, .str (some a)⟩ true =
        (hc, .ok ⟨1, .str (some h.next)⟩) ∧
      h.next ≠ a ∧
      h.lookup h.next = none ∧
      hc.lookup h.next = some s ∧
      hc.lookup a = some s ∧
      (∃ hd, moveAssign hc ⟨1, .str (some h.next)⟩ (fromNumber 5) false =
          (hd, .ok (fromNumber 5, fromNumber 5)) ∧
        hd.lookup a = some s ∧
        (fromNumber 5).AsNumber = .ok 5) ∧
      (destroy hc ⟨1, .str (some h.next)⟩).1.lookup a = some s := by
  have ha : a < h.next := lt_next_of_lookup h a s hw hl
  have hne : h.next ≠ a := by omega
  have hw2 : ∀ pr ∈ h.strs, pr.1 < h.next := by
    simpa [Heap.wfb, List.all_eq_true, decide_eq_true_eq] using hw
  have hsat : h.strAt (some a) = s := by
    simp [Heap.strAt, hl]
  have hcc : copyCtor h ⟨1, .str (some a)⟩ true =
      ((h.allocStr s).1, .ok ⟨1, .str (some h.next)⟩) := by
    simp [copyCtor, uvalue.getStr, hsat, allocStr_addr]
  have hd1 : ((h.allocStr s).1.deleteStr h.next).lookup a = some s := by
    simp only [Heap.allocStr, Heap.deleteStr, Heap.lookup]
    rw [findStr_removeStr _ h.next a hne]
    simp only [findStr, if_neg hne]
    exact hl
  refine ⟨(h.allocStr s).1, hcc, hne, ?_, ?_, ?_,
    ⟨(h.allocStr s).1.deleteStr h.next, ?_, hd1, rfl⟩, ?_⟩
  · simpa [Heap.lookup] using
      findStr_eq_none_of_ge h.strs h.next h.next hw2 le_rfl
  · simp [Heap.allocStr, Heap.lookup, findStr]
  · simp only [Heap.allocStr, Heap.lookup, findStr, if_neg hne]
    exact hl
  · simp [moveAssign, cleanupOp, uvalue.getStr, uvalue.getNum, fromNumber]
  · simpa [destroy, cleanupOp, uvalue.getStr] using hd1

/-- Witness for C7: copying the `"hello"` cell of `hHello`. -/
theorem C7_text_copy_independent_witness :
    hHello.wfb = true ∧
    hHello.lookup 0 = some "hello" ∧
    (∃ hc, copyCtor hHello ⟨1, .str (some 0)⟩ true =
        (hc, .ok ⟨1, .str (some hHello.next)⟩) ∧
      hHello.next ≠ 0 ∧
      hHello.lookup hHello.next = none ∧
      hc.lookup hHello.next = some "hello" ∧
      hc.lookup 0 = some "hello" ∧
      (∃ hd, moveAssign hc ⟨1, .str (some hHello.next)⟩ (fromNumber 5)
          false = (hd, .ok (fromNumber 5, fromNumber 5)) ∧
        hd.lookup 0 = some "hello" ∧
        (fromNumber 5).AsNumber = .ok 5) ∧
      (destroy hc ⟨1, .str (some hHello.next)⟩).1.lookup 0 =
        some "hello") :=
  ⟨rfl, rfl, C7_text_copy_independent hHello 0 "hello" rfl rfl⟩

/-- C9 counterexample: a value whose tag field holds the impossible tag 3
reaching copy dispatch does not abort or assert — the copy constructor
throws `std::logic_error("Impossible type")`, a typed, catchable error
that propagates to the caller (and through copy assignment). -/
theorem C9_counterexample :
    copyCtor h0 ⟨3, .num 0⟩ true =
      (h0, .error (.logicError "Impossible type")) ∧
    copyAssign h0 value_default ⟨3, .num 0⟩ false true =
      (h0, .thrown (.logicError "Impossible type") value_default) :=
  ⟨rfl, rfl⟩

/-- C9 amended: an impossible tag reaching `cleanup` or move dispatch hits
`assert(0)` (abort, not a typed error); but an impossible tag reaching copy
construction throws `std::logic_error`, and reaching accessor dispatch
throws the `runtime_error` type-mismatch errors — typed, catchable errors
that propagate to the caller rather than aborting. -/
theorem C9_unknown_tag_dispatch (h : Heap) (t : Nat) (u : uvalue)
    (ht : 3 ≤ t) :
    cleanupOp h ⟨t, u⟩ = (h, .asserted) ∧
    destroy h ⟨t, u⟩ = (h, .asserted) ∧
    moveCtor ⟨t, u⟩ = .asserted ∧
    moveAssign h value_default ⟨t, u⟩ false = (h, .asserted) ∧
    moveAssign h ⟨t, u⟩ value_default false = (h, .asserted) ∧
    copyCtor h ⟨t, u⟩ true = (h, .error (.logicError "Impossible type")) ∧
    copyAssign h value_default ⟨t, u⟩ false true =
      (h, .thrown (.logicError "Impossible type") value_default) ∧
    value_t.AsNumber ⟨t, u⟩ =
      .error (.runtimeError "Value is not a number") ∧
    value_t.AsString ⟨t, u⟩ =
      .error (.runtimeError "Value is not a string") ∧
    value_t.AsPointer ⟨t, u⟩ =
      .error (.runtimeError "Value is not a pointer") := by
  obtain ⟨k, rfl⟩ : ∃ k, t = k + 3 := ⟨t - 3, by omega⟩
  have hz : ¬(k + 3 = 0) := by omega
  have ho : ¬(k + 3 = 1) := by omega
  have htw : ¬(k + 3 = 2) := by omega
  simp [cleanupOp, destroy, moveCtor, moveAssign, copyCtor, copyAssign,
    value_t.AsNumber, value_t.AsString, value_t.AsPointer, value_default,
    hz, ho, htw]

/-- Witness for the amended C9 at tag 3. -/
theorem C9_unknown_tag_dispatch_witness :
    3 ≤ 3 ∧
    (cleanupOp h0 ⟨3, .num 0⟩ = (h0, .asserted) ∧
     destroy h0 ⟨3, .num 0⟩ = (h0, .asserted) ∧
     moveCtor ⟨3, .num 0⟩ = .asserted ∧
     moveAssign h0 value_default ⟨3, .num 0⟩ false = (h0, .asserted) ∧
     moveAssign h0 ⟨3, .num 0⟩ value_default false = (h0, .asserted) ∧
     copyCtor h0 ⟨3, .num 0⟩ true =
       (h0, .error (.logicError "Impossible type")) ∧
     copyAssign h0 value_default ⟨3, .num 0⟩ false true =
       (h0, .thrown (.logicError "Impossible type") value_default) ∧
     value_t.AsNumber ⟨3, .num 0⟩ =
       .error (.runtimeError "Value is not a number") ∧
     value_t.AsString ⟨3, .num 0⟩ =
       .error (.runtimeError "Value is not a string") ∧
     value_t.AsPointer ⟨3, .num 0⟩ =
       .error (.runtimeError "Value is not a pointer")) :=
  ⟨by omega, C9_unknown_tag_dispatch h0 3 (.num 0) (by omega)⟩

/-- C10 (implicit): self-assignment — copy or move, any tag, even a
pointer-tagged or ill-formed value — is an identity: the `this != &rhs`
guard makes it return the object unchanged, with no release, no
allocation, and no failure. -/
theorem C10_self_assignment_identity (h : Heap) (v : value_t)
    (allocOk : Bool) :
    copyAssign h v v true allocOk = (h, .ok v) ∧
    moveAssign h v v true = (h, .ok (v, v)) :=
  ⟨rfl, rfl⟩

end bvl
